import Mathlib

/-!
Verification development for the NFS-e Nacional XML signing engine
(`signer.py`, function `assinar_xml`).

Modelling conventions (shallow embedding of the Python source):

* XML trees follow the lxml/ElementTree data model: an element carries a
  tag in Clark notation (`{namespace-uri}local`), an ordered attribute
  list, its leading text, an ordered child list and its tail text;
  comment nodes carry their content and tail.  Namespace-prefix rendering
  is abstracted away: tags are kept in Clark notation, which is a
  deterministic, injective encoding sufficient for the digest-equality
  and structural claims (no claim compares canonical bytes against an
  external byte string).
* `lxml.etree.tostring(e)` followed by `lxml.etree.fromstring` on a
  subtree (signer.py lines 95-101 and 148-152) yields the same subtree
  with its tail text outside the element dropped; since C14N of a parsed
  document serialises only the root element (never its tail), the
  composed round-trip is exactly `c14nNode` below, which ignores the top
  element's own tail.
* `hashlib.sha1` and the RSA primitive `private_key.sign(data,
  padding.PKCS1v15(), hashes.SHA1())` are external library functions;
  they are parameters of the embedding (`sha1`, the `sign` field of
  `PrivKey`).  `PKCS1v15` RSA signing is deterministic, so `sign` is a
  function; it may fail (`Except`), modelling the exception a
  non-RSA key raises when called with RSA padding arguments.
* `cryptography.hazmat.primitives.serialization.pkcs12.load_key_and_certificates`
  is likewise a parameter (`Pkcs12Load`); an `Except.error` models the
  exception it raises on an unparsable container or wrong passphrase.
* File I/O (signer.py lines 45-46 read the .pfx path) is the caller's;
  the embedding receives the PKCS#12 bytes directly, and receives the
  XML input already parsed into the tree model (lines 62-66 parse both
  the `str` and `bytes` forms into the same tree).
-/

/-- Bytes are modelled as natural numbers (each meant to be < 256). -/
def Bytes : Type := List Nat

/-- XML node in the lxml data model: element (Clark-notation tag, ordered
attributes, text, children, tail) or comment (content, tail). -/
inductive XNode where
  | elem (tag : String) (attrs : List (String × String)) (text : String)
      (children : List XNode) (tail : String)
  | comment (content : String) (tail : String)

/-- Namespace constant `NS_NFSE` from signer.py line 13. -/
def NS_NFSE : String := "http://www.sped.fazenda.gov.br/nfse"

/-- Namespace constant `NS_DS` from signer.py line 14. -/
def NS_DS : String := "http://www.w3.org/2000/09/xmldsig#"

/-- Clark notation `{ns}local` for a tag in the NFSe namespace, as used by
`root.find("ns:tag", {"ns": NS_NFSE})` (signer.py lines 68, 74). -/
def nfseTag (localName : String) : String := "\x7b" ++ NS_NFSE ++ "\x7d" ++ localName

/-- Clark notation `{ns}local` for a tag in the XML-DSig namespace, as in
the `"{%s}Signature" % NS_DS` element constructions (lines 111-165). -/
def dsTag (localName : String) : String := "\x7b" ++ NS_DS ++ "\x7d" ++ localName

def XNode.tailOf : XNode → String
  | .elem _ _ _ _ tl => tl
  | .comment _ tl => tl

def XNode.textOf : XNode → String
  | .elem _ _ tx _ _ => tx
  | .comment _ _ => ""

def XNode.childrenOf : XNode → List XNode
  | .elem _ _ _ cs _ => cs
  | .comment _ _ => []

def XNode.attrsOf : XNode → List (String × String)
  | .elem _ a _ _ _ => a
  | .comment _ _ => []

/-- Replace a node's tail text (used to model how `addnext` repositions an
element relative to the tail text node in libxml2). -/
def XNode.setTail : XNode → String → XNode
  | .elem tg a tx cs _, s => .elem tg a tx cs s
  | .comment c _, s => .comment c s

/-- Replace an element's child list; comments have no children. -/
def XNode.setChildren : XNode → List XNode → XNode
  | .elem tg a tx _ tl, cs => .elem tg a tx cs tl
  | .comment c tl, _ => .comment c tl

/-- Whether the node is an element with the given (Clark-notation) tag. -/
def isTag (t : String) : XNode → Bool
  | .elem tg _ _ _ _ => tg == t
  | .comment _ _ => false

/-- Attribute lookup, modelling `element.get(name)` (signer.py line 81). -/
def attrOf (n : XNode) (name : String) : Option String :=
  (n.attrsOf.find? (fun a => a.1 == name)).map (fun a => a.2)

/-- First match of a predicate in a list, returned with its context
(elements before it, the match, elements after it).  `root.find` (line 74)
is the middle projection; `target_element.addnext` (line 171) inserts into
the same decomposition. -/
def findFirst (p : XNode → Bool) : List XNode → Option (List XNode × XNode × List XNode)
  | [] => none
  | c :: rest =>
    if p c then some ([], c, rest)
    else (findFirst p rest).map (fun r => (c :: r.1, r.2.1, r.2.2))

/-- The target locator of signer.py line 74: `root.find("ns:tag", ns_nfse)`.
ElementPath paths without a `.//` prefix select among the *direct children*
only, first match in document order. -/
def locate (root : XNode) (tagToSign : String) : Option XNode :=
  (findFirst (isTag (nfseTag tagToSign)) root.childrenOf).map (fun r => r.2.1)

/-- Whether an element with the given tag occurs anywhere in the tree
(the node itself or any descendant).  Used to state what the locator does
NOT search. -/
def containsTagDeep (t : String) : XNode → Bool
  | .comment _ _ => false
  | .elem tg _ _ children _ => (tg == t) || anyContainsTag t children
where
  /-- Deep tag search over a child list. -/
  anyContainsTag (t : String) : List XNode → Bool
  | [] => false
  | c :: rest => containsTagDeep t c || anyContainsTag t rest

/-- Character escaping for text content in C14N output. -/
def escTextChar (c : Char) : String :=
  if c = '&' then "&amp;"
  else if c = '<' then "&lt;"
  else if c = '>' then "&gt;"
  else if c = '\r' then "&#xD;"
  else String.singleton c

/-- Escape text content for C14N output. -/
def escText (s : String) : String := String.join (s.toList.map escTextChar)

/-- Character escaping for attribute values in C14N output. -/
def escAttrChar (c : Char) : String :=
  if c = '&' then "&amp;"
  else if c = '<' then "&lt;"
  else if c = '"' then "&quot;"
  else if c = '\t' then "&#x9;"
  else if c = '\n' then "&#xA;"
  else if c = '\r' then "&#xD;"
  else String.singleton c

/-- Escape an attribute value for C14N output. -/
def escAttr (s : String) : String := String.join (s.toList.map escAttrChar)

/-- Insert an attribute into a name-sorted attribute list. -/
def insertAttrSorted (a : String × String) :
    List (String × String) → List (String × String)
  | [] => [a]
  | b :: bs => if a.1 < b.1 then a :: b :: bs else b :: insertAttrSorted a bs

/-- Sort attributes by name, as C14N requires. -/
def sortAttrs : List (String × String) → List (String × String)
  | [] => []
  | a :: rest => insertAttrSorted a (sortAttrs rest)

/-- Render an attribute list as ` name="value"` runs. -/
def attrsRendered (l : List (String × String)) : String :=
  String.join (l.map (fun a => " " ++ a.1 ++ "=\"" ++ escAttr a.2 ++ "\""))

mutual
/-- C14N 1.0 canonical form of an element in the tree model, inclusive
(exclusive=False) and with comments stripped (with_comments=False),
exactly the parameters fixed at signer.py lines 96-101 and 150-152.
Attributes are emitted sorted by name; the node's own tail is not part of
its canonical form (document-level C14N serialises only the root element);
tails of children are document text and are kept; comment nodes are
dropped but their tails are kept. -/
def c14nNode : XNode → String
  | XNode.comment _ _ => ""
  | XNode.elem tag attrs text children _ =>
      "<" ++ tag ++ attrsRendered (sortAttrs attrs) ++ ">" ++ escText text
        ++ c14nKids children ++ "</" ++ tag ++ ">"

/-- C14N serialisation of a child list (each child followed by its tail). -/
def c14nKids : List XNode → String
  | [] => ""
  | c :: rest => c14nNode c ++ escText c.tailOf ++ c14nKids rest
end

mutual
/-- Plain (non-canonical) serialisation, modelling
`ET.tostring(root, pretty_print=False)` at signer.py line 174: comments
kept, attributes in document order, childless empty elements self-closed. -/
def serializeNode : XNode → String
  | XNode.comment c _ => "<!--" ++ c ++ "-->"
  | XNode.elem tag attrs text children _ =>
      if text.isEmpty && children.isEmpty then
        "<" ++ tag ++ attrsRendered attrs ++ "/>"
      else
        "<" ++ tag ++ attrsRendered attrs ++ ">" ++ escText text
          ++ serializeKids children ++ "</" ++ tag ++ ">"

/-- Serialisation of a child list (each child followed by its tail). -/
def serializeKids : List XNode → String
  | [] => ""
  | c :: rest => serializeNode c ++ escText c.tailOf ++ serializeKids rest
end

/-- The XML declaration emitted by `xml_declaration=True` (line 174). -/
def xmlDecl : String := "<?xml version=\x271.0\x27 encoding=\x27utf-8\x27?>\n"

/-- Full-document serialisation with XML declaration (lines 174-175). -/
def serializeDoc (root : XNode) : String := xmlDecl ++ serializeNode root

/-- UTF-8 bytes of a string, modelling Python `str.encode("utf-8")` and the
byte strings produced by `ET.tostring(..., encoding="utf-8")`. -/
def strBytes (s : String) : Bytes := s.toUTF8.toList.map (fun b => b.toNat)

/-- Base64 alphabet. -/
def b64Alphabet : List Char :=
  "ABCDEFGHIJKLMNOPQRSTUVWXYZabcdefghijklmnopqrstuvwxyz0123456789+/".toList

/-- Character of the base64 alphabet at a 6-bit index. -/
def b64Char (n : Nat) : Char := b64Alphabet.getD n '='

/-- Standard base64 encoding of a byte list, modelling
`base64.b64encode(...).decode()` (signer.py lines 60, 104, 155). -/
def base64Encode : Bytes → String
  | [] => ""
  | [a] =>
      String.mk [b64Char (a % 256 / 4), b64Char (a % 256 % 4 * 16), '=', '=']
  | [a, b] =>
      String.mk [b64Char (a % 256 / 4),
        b64Char (a % 256 % 4 * 16 + b % 256 / 16),
        b64Char (b % 256 % 16 * 4), '=']
  | a :: b :: c :: rest =>
      String.mk [b64Char (a % 256 / 4),
        b64Char (a % 256 % 4 * 16 + b % 256 / 16),
        b64Char (b % 256 % 16 * 4 + c % 256 / 64),
        b64Char (c % 256 % 64)]
      ++ base64Encode rest

/-- Private-key handle as returned by the PKCS#12 loader.  Its `sign`
field models `private_key.sign(data, padding.PKCS1v15(), hashes.SHA1())`
(signer.py line 154): RSASSA-PKCS1-v1_5 signing is a deterministic
function of the key and the input bytes; an `Except.error` models the
exception raised when the key is not usable with these RSA arguments
(e.g. a non-RSA key). -/
structure PrivKey where
  sign : Bytes → Except String Bytes

/-- Result triple of `pkcs12.load_key_and_certificates`: optional private
key, optional leaf certificate (modelled by its DER bytes, the value
`certificate.public_bytes(Encoding.DER)` of line 60 evaluates to), and the
additional certificates.  Any component may be absent. -/
def Pkcs12Result : Type := Option PrivKey × Option Bytes × List Bytes

/-- Behaviour of `pkcs12.load_key_and_certificates(pfx_data, password)`
(signer.py lines 47-49), as a parameter of the embedding: an
`Except.error` models the exception the library raises on an unparsable
container or a wrong passphrase. -/
def Pkcs12Load : Type := Bytes → Option Bytes → Except String Pkcs12Result

/-- Errors of the signing operation.  `pfxLoadRaise` and `signRaise` are
exceptions propagated uncaught from the cryptography library;
`pfxInvalid`, `elementNotFound` and `missingId` are the `ValueError`s
`assinar_xml` itself raises (lines 51-55, 75-79, 82-86). -/
inductive SignError where
  | pfxLoadRaise (msg : String)
  | pfxInvalid
  | elementNotFound (tagToSign : String)
  | missingId (tagToSign : String)
  | signRaise (msg : String)

/-- Errors that constitute the spec's `InvalidCredential` class: a
credential-loading failure, whether raised by the PKCS#12 library (parse
failure, wrong passphrase) or by the code's own missing key/certificate
check. -/
def SignError.isInvalidCredential : SignError → Bool
  | .pfxLoadRaise _ => true
  | .pfxInvalid => true
  | _ => false

/-- Errors raised explicitly by `assinar_xml` itself (its own `raise
ValueError` statements), as opposed to exceptions propagated from the
cryptography library. -/
def SignError.isExplicitValueError : SignError → Bool
  | .pfxInvalid => true
  | .elementNotFound _ => true
  | .missingId _ => true
  | _ => false

/-- Password normalisation of signer.py line 48:
`pfx_password.encode() if pfx_password else None`.  Both an absent
password and the empty string are falsy in Python and become `None`;
anything else is UTF-8 encoded. -/
def pwdArg : Option String → Option Bytes
  | none => none
  | some s => if s = "" then none else some (strBytes s)

/-- Credential loading, signer.py lines 45-58: parse the PKCS#12 bytes
(library exceptions propagate) and fail with the code's `ValueError` when
the private key or the certificate is absent. -/
def loadCredential (loadP12 : Pkcs12Load) (pfxData : Bytes)
    (pfxPassword : Option String) : Except SignError (PrivKey × Bytes) :=
  match loadP12 pfxData (pwdArg pfxPassword) with
  | .error m => .error (.pfxLoadRaise m)
  | .ok (okey, ocert, _addl) =>
    match okey, ocert with
    | some k, some c => .ok (k, c)
    | _, _ => .error .pfxInvalid

/-- Target location, signer.py lines 74-79: first direct child of the
root whose tag is `{NS_NFSE}tag_to_sign`, with its sibling context kept
for the later `addnext` insertion; `ValueError` if there is none. -/
def locateTarget (root : XNode) (tagToSign : String) :
    Except SignError (List XNode × XNode × List XNode) :=
  match findFirst (isTag (nfseTag tagToSign)) root.childrenOf with
  | none => .error (.elementNotFound tagToSign)
  | some r => .ok r

/-- Id extraction, signer.py lines 81-86: `target_element.get("Id")`
followed by `if not inf_id`, so an absent and an empty Id both raise the
same `ValueError`. -/
def getId (target : XNode) (tagToSign : String) : Except SignError String :=
  match attrOf target "Id" with
  | none => .error (.missingId tagToSign)
  | some infId => if infId = "" then .error (.missingId tagToSign) else .ok infId

/-- The base64 digest of signer.py lines 95-104: SHA-1 over the C14N
bytes of the target element, base64-encoded. -/
def digestB64 (sha1 : Bytes → Bytes) (target : XNode) : String :=
  base64Encode (sha1 (strBytes (c14nNode target)))

/-- URI constant of lines 117, 135 (CanonicalizationMethod / second Transform). -/
def c14nAlgURI : String := "http://www.w3.org/TR/2001/REC-xml-c14n-20010315"

/-- URI constant of line 122 (SignatureMethod). -/
def rsaSha1URI : String := "http://www.w3.org/2000/09/xmldsig#rsa-sha1"

/-- URI constant of line 130 (first Transform). -/
def envelopedSigURI : String := "http://www.w3.org/2000/09/xmldsig#enveloped-signature"

/-- URI constant of line 140 (DigestMethod). -/
def sha1AlgURI : String := "http://www.w3.org/2000/09/xmldsig#sha1"

/-- The SignedInfo element built at signer.py lines 113-142:
CanonicalizationMethod, SignatureMethod, then one Reference with
URI="#"+id holding Transforms (enveloped-signature then C14N),
DigestMethod and DigestValue, in that order. -/
def buildSignedInfo (infId digest : String) : XNode :=
  .elem (dsTag "SignedInfo") [] ""
    [ .elem (dsTag "CanonicalizationMethod") [("Algorithm", c14nAlgURI)] "" [] ""
    , .elem (dsTag "SignatureMethod") [("Algorithm", rsaSha1URI)] "" [] ""
    , .elem (dsTag "Reference") [("URI", "#" ++ infId)] ""
        [ .elem (dsTag "Transforms") [] ""
            [ .elem (dsTag "Transform") [("Algorithm", envelopedSigURI)] "" [] ""
            , .elem (dsTag "Transform") [("Algorithm", c14nAlgURI)] "" [] "" ] ""
        , .elem (dsTag "DigestMethod") [("Algorithm", sha1AlgURI)] "" [] ""
        , .elem (dsTag "DigestValue") [] digest [] "" ] "" ] ""

/-- The full Signature element after lines 111 and 161-165: SignedInfo,
then SignatureValue, then KeyInfo/X509Data/X509Certificate. -/
def buildSignature (signedInfo : XNode) (sigB64 certB64 : String) : XNode :=
  .elem (dsTag "Signature") [] ""
    [ signedInfo
    , .elem (dsTag "SignatureValue") [] sigB64 [] ""
    , .elem (dsTag "KeyInfo") [] ""
        [ .elem (dsTag "X509Data") [] ""
            [ .elem (dsTag "X509Certificate") [] certB64 [] "" ] "" ] "" ]
    ""

/-- Steps 4-8 of signer.py after the Id is in hand: canonicalise the
SignedInfo (lines 148-152), sign it (line 154; a library exception from a
key that is unusable with the RSA arguments propagates), assemble the
Signature (lines 161-165) and insert it via `target_element.addnext`
(line 171).  `addnext` places the new element directly after the target
node in libxml2, i.e. before the text node holding the target's tail, so
the tail text moves onto the Signature element. -/
def signStep (sha1 : Bytes → Bytes) (key : PrivKey) (certDer : Bytes)
    (root : XNode) (pre : List XNode) (target : XNode) (post : List XNode)
    (infId : String) : Except SignError XNode :=
  match key.sign (strBytes (c14nNode (buildSignedInfo infId (digestB64 sha1 target)))) with
  | .error m => .error (.signRaise m)
  | .ok raw =>
      .ok (root.setChildren
        (pre ++ target.setTail "" ::
          (buildSignature (buildSignedInfo infId (digestB64 sha1 target))
            (base64Encode raw)
            (base64Encode certDer)).setTail target.tailOf :: post))

/-- The whole `assinar_xml` pipeline on a parsed document, returning the
mutated tree (the value serialised at line 174). -/
def assinarCore (loadP12 : Pkcs12Load) (sha1 : Bytes → Bytes)
    (pfxData : Bytes) (pfxPassword : Option String)
    (root : XNode) (tagToSign : String) : Except SignError XNode :=
  Except.bind (loadCredential loadP12 pfxData pfxPassword) fun kc =>
  Except.bind (locateTarget root tagToSign) fun loc =>
  Except.bind (getId loc.2.1 tagToSign) fun infId =>
  signStep sha1 kc.1 kc.2 root loc.1 loc.2.1 loc.2.2 infId

/-- The full `assinar_xml`: the signed tree serialised with an XML
declaration, UTF-8, no pretty-printing (signer.py lines 174-180). -/
def assinarXml (loadP12 : Pkcs12Load) (sha1 : Bytes → Bytes)
    (pfxData : Bytes) (pfxPassword : Option String)
    (root : XNode) (tagToSign : String) : Except SignError String :=
  (assinarCore loadP12 sha1 pfxData pfxPassword root tagToSign).map serializeDoc

/-- First direct child element with the given tag. -/
def firstChildTag (n : XNode) (t : String) : Option XNode :=
  n.childrenOf.find? (isTag t)

/-- Number of direct children carrying the given tag. -/
def countTag (t : String) (l : List XNode) : Nat := l.countP (isTag t)

/-- The DigestValue text reachable inside a Signature element
(Signature → SignedInfo → Reference → DigestValue). -/
def digestValueOf (sig : XNode) : Option String :=
  (firstChildTag sig (dsTag "SignedInfo")).bind fun si =>
  (firstChildTag si (dsTag "Reference")).bind fun r =>
  (firstChildTag r (dsTag "DigestValue")).map XNode.textOf

/-- The SignatureValue text of a Signature element. -/
def sigValueOf (sig : XNode) : Option String :=
  (firstChildTag sig (dsTag "SignatureValue")).map XNode.textOf

/-- Concrete private key whose `sign` always succeeds, for concrete runs. -/
def demoKey : PrivKey := ⟨fun _ => Except.ok [3]⟩

/-- Concrete PKCS#12 loader behaviour that parses successfully and
yields a key and a one-byte DER certificate. -/
def demoLoad : Pkcs12Load := fun _ _ => Except.ok (some demoKey, some [1], [])

/-- Concrete stand-in for the SHA-1 parameter in concrete runs. -/
def demoSha : Bytes → Bytes := fun _ => [1, 2]

/-- Concrete PKCS#12 container bytes. -/
def demoPfx : Bytes := [48]

/-- Concrete target element: an `infDPS` with a non-empty Id. -/
def demoTarget : XNode := XNode.elem (nfseTag "infDPS") [("Id", "X1")] "" [] ""

/-- Concrete document: a DPS root with the target as its only child. -/
def demoDoc : XNode := XNode.elem (nfseTag "DPS") [] "" [demoTarget] ""

/-- The concrete signing run used by the witnesses. -/
def demoRun : Except SignError XNode :=
  assinarCore demoLoad demoSha demoPfx none demoDoc "infDPS"

/-- The signed tree the concrete run produces. -/
def demoOut : XNode :=
  match demoRun with
  | Except.ok o => o
  | Except.error _ => XNode.comment "" ""

/-- Concrete private key whose `sign` raises, modelling a key that is not
usable with the RSA signing arguments (e.g. a non-RSA key). -/
def badKey : PrivKey := ⟨fun _ => Except.error "bad key type"⟩

/-- PKCS#12 loader behaviour returning the unusable key. -/
def badKeyLoad : Pkcs12Load := fun _ _ => Except.ok (some badKey, some [1], [])

/-- PKCS#12 loader behaviour that fails to parse the container. -/
def failLoad : Pkcs12Load := fun _ _ => Except.error "could not deserialize"

/-- Document whose only `infDPS` element is a grandchild, not a direct
child, of the root. -/
def nestedDoc : XNode :=
  XNode.elem (nfseTag "DPS") [] ""
    [XNode.elem (nfseTag "outer") [] "" [demoTarget] ""] ""

/-- Document with two direct `infDPS` children (first-match check). -/
def twoMatchDoc : XNode :=
  XNode.elem (nfseTag "DPS") [] ""
    [ demoTarget
    , XNode.elem (nfseTag "infDPS") [("Id", "X2")] "" [] "" ] ""

/-- Document with no `infDPS` element anywhere. -/
def noMatchDoc : XNode :=
  XNode.elem (nfseTag "DPS") [] ""
    [XNode.elem (nfseTag "other") [] "" [] ""] ""

/-- Document whose `infDPS` child has no Id attribute. -/
def noIdDoc : XNode :=
  XNode.elem (nfseTag "DPS") [] ""
    [XNode.elem (nfseTag "infDPS") [] "" [] ""] ""

/-- Elimination principle for a successful `Except.bind`. -/
theorem bindOkElim {ε α β : Type} {x : Except ε α} {f : α → Except ε β} {b : β}
    (h : Except.bind x f = Except.ok b) :
    ∃ a, x = Except.ok a ∧ f a = Except.ok b := by
  cases x with
  | error e => exact Except.noConfusion h
  | ok a => exact ⟨a, rfl, h⟩

/-- A successful `findFirst` decomposes the list: the elements before the
match all fail the predicate and the match satisfies it. -/
theorem findFirst_sound (p : XNode → Bool) :
    ∀ (cs pre : List XNode) (t : XNode) (post : List XNode),
      findFirst p cs = some (pre, t, post) →
      cs = pre ++ t :: post ∧ p t = true ∧ ∀ x ∈ pre, p x = false := by
  intro cs
  induction cs with
  | nil => intro pre t post h; exact Option.noConfusion h
  | cons c rest ih =>
    intro pre t post h
    simp only [findFirst] at h
    split at h
    case isTrue hc =>
      simp only [Option.some.injEq, Prod.mk.injEq] at h
      obtain ⟨h1, h2, h3⟩ := h
      subst h1; subst h2; subst h3
      refine ⟨rfl, hc, ?_⟩
      intro x hx
      exact absurd hx (List.not_mem_nil x)
    case isFalse hc =>
      cases hr : findFirst p rest with
      | none => rw [hr] at h; exact Option.noConfusion h
      | some r =>
        rw [hr] at h
        simp only [Option.map_some', Option.some.injEq, Prod.mk.injEq] at h
        obtain ⟨h1, h2, h3⟩ := h
        obtain ⟨hcs, hpt, hpre⟩ := ih r.1 r.2.1 r.2.2 (by rw [hr])
        subst h1; subst h2; subst h3
        refine ⟨by rw [hcs]; rfl, hpt, ?_⟩
        intro x hx
        rcases List.mem_cons.mp hx with hx1 | hx2
        · subst hx1; exact Bool.eq_false_iff.mpr hc
        · exact hpre x hx2

/-- A list in which every element fails the predicate has no first match. -/
theorem findFirst_none (p : XNode → Bool) :
    ∀ cs : List XNode, (∀ x ∈ cs, p x = false) → findFirst p cs = none := by
  intro cs
  induction cs with
  | nil => intro _; rfl
  | cons c rest ih =>
    intro hall
    have hc : p c = false := hall c (List.mem_cons_self c rest)
    simp only [findFirst, hc]
    rw [ih (fun x hx => hall x (List.mem_cons_of_mem c hx))]
    simp

/-- A list containing an element satisfying the predicate has a first
match. -/
theorem findFirst_isSome (p : XNode → Bool) :
    ∀ cs : List XNode, (∃ c ∈ cs, p c = true) →
      ∃ r, findFirst p cs = some r := by
  intro cs
  induction cs with
  | nil => intro h; obtain ⟨c, hc, _⟩ := h; exact absurd hc (List.not_mem_nil c)
  | cons c rest ih =>
    intro h
    by_cases hc : p c = true
    · exact ⟨([], c, rest), by simp [findFirst, hc]⟩
    · obtain ⟨d, hd, hpd⟩ := h
      rcases List.mem_cons.mp hd with h1 | h2
      · subst h1; exact absurd hpd hc
      · obtain ⟨r, hr⟩ := ih ⟨d, h2, hpd⟩
        refine ⟨(c :: r.1, r.2.1, r.2.2), ?_⟩
        simp [findFirst, Bool.eq_false_iff.mpr hc, hr]

/-- On a list of the shape `pre ++ t :: post` with no match in `pre` and
`t` matching, `findFirst` returns exactly that decomposition. -/
theorem findFirst_prepend (p : XNode → Bool) :
    ∀ (pre : List XNode) (t : XNode) (post : List XNode),
      (∀ x ∈ pre, p x = false) → p t = true →
      findFirst p (pre ++ t :: post) = some (pre, t, post) := by
  intro pre
  induction pre with
  | nil => intro t post _ hpt; simp [findFirst, hpt]
  | cons c cpre ih =>
    intro t post hall hpt
    have hc : p c = false := hall c (List.mem_cons_self c cpre)
    have hih := ih t post (fun x hx => hall x (List.mem_cons_of_mem c hx)) hpt
    simp only [List.cons_append, findFirst, hc, List.append_eq]
    rw [hih]
    simp

/-- Successful credential loading means the PKCS#12 parse succeeded and
returned both a private key and a certificate. -/
theorem loadCredential_ok {loadP12 : Pkcs12Load} {pfxData : Bytes}
    {pwd : Option String} {kc : PrivKey × Bytes}
    (h : loadCredential loadP12 pfxData pwd = Except.ok kc) :
    ∃ addl, loadP12 pfxData (pwdArg pwd) = Except.ok (some kc.1, some kc.2, addl) := by
  unfold loadCredential at h
  cases hp : loadP12 pfxData (pwdArg pwd) with
  | error m => rw [hp] at h; exact Except.noConfusion h
  | ok res =>
    rw [hp] at h
    obtain ⟨okey, ocert, addl⟩ := res
    cases okey with
    | none => exact Except.noConfusion h
    | some k =>
      cases ocert with
      | none => exact Except.noConfusion h
      | some c =>
        simp only [Except.ok.injEq] at h
        subst h
        exact ⟨addl, rfl⟩

/-- Successful location means `findFirst` found the target. -/
theorem locateTarget_ok {root : XNode} {tg : String}
    {loc : List XNode × XNode × List XNode}
    (h : locateTarget root tg = Except.ok loc) :
    findFirst (isTag (nfseTag tg)) root.childrenOf = some loc := by
  unfold locateTarget at h
  cases hf : findFirst (isTag (nfseTag tg)) root.childrenOf with
  | none => rw [hf] at h; exact Except.noConfusion h
  | some r => rw [hf] at h; simp only [Except.ok.injEq] at h; rw [h]

/-- Successful Id extraction means the attribute is present and non-empty. -/
theorem getId_ok {t : XNode} {tg : String} {infId : String}
    (h : getId t tg = Except.ok infId) :
    attrOf t "Id" = some infId ∧ infId ≠ "" := by
  unfold getId at h
  cases ha : attrOf t "Id" with
  | none => rw [ha] at h; exact Except.noConfusion h
  | some v =>
    rw [ha] at h
    have h2 : (if v = "" then Except.error (SignError.missingId tg)
        else Except.ok v) = Except.ok infId := h
    by_cases hv : v = ""
    · rw [if_pos hv] at h2; exact Except.noConfusion h2
    · rw [if_neg hv] at h2
      simp only [Except.ok.injEq] at h2
      subst h2
      exact ⟨rfl, hv⟩

/-- Successful signing step means the RSA primitive succeeded and the
output tree is the input with the Signature spliced in after the target. -/
theorem signStep_ok {sha1 : Bytes → Bytes} {key : PrivKey} {certDer : Bytes}
    {root : XNode} {pre : List XNode} {t : XNode} {post : List XNode}
    {infId : String} {out : XNode}
    (h : signStep sha1 key certDer root pre t post infId = Except.ok out) :
    ∃ raw,
      key.sign (strBytes (c14nNode (buildSignedInfo infId (digestB64 sha1 t))))
        = Except.ok raw ∧
      out = root.setChildren (pre ++ t.setTail "" ::
        (buildSignature (buildSignedInfo infId (digestB64 sha1 t))
          (base64Encode raw) (base64Encode certDer)).setTail t.tailOf :: post) := by
  unfold signStep at h
  cases hs : key.sign (strBytes (c14nNode (buildSignedInfo infId (digestB64 sha1 t)))) with
  | error m => rw [hs] at h; exact Except.noConfusion h
  | ok raw =>
    rw [hs] at h
    simp only [Except.ok.injEq] at h
    exact ⟨raw, rfl, h.symm⟩

/-- Full characterisation of a successful `assinar_xml` run: the PKCS#12
parse yielded key and certificate, a direct child of the root carries the
target tag (none before it does), its Id is present and non-empty, the
RSA primitive succeeded on the canonical SignedInfo, and the output tree
is the input with the assembled Signature inserted right after the
target. -/
theorem assinarCore_ok {loadP12 : Pkcs12Load} {sha1 : Bytes → Bytes}
    {pfxData : Bytes} {pwd : Option String} {root : XNode} {tg : String}
    {out : XNode}
    (h : assinarCore loadP12 sha1 pfxData pwd root tg = Except.ok out) :
    ∃ key certDer addl pre t post infId raw,
      loadP12 pfxData (pwdArg pwd) = Except.ok (some key, some certDer, addl) ∧
      findFirst (isTag (nfseTag tg)) root.childrenOf = some (pre, t, post) ∧
      attrOf t "Id" = some infId ∧ infId ≠ "" ∧
      key.sign (strBytes (c14nNode (buildSignedInfo infId (digestB64 sha1 t))))
        = Except.ok raw ∧
      out = root.setChildren (pre ++ t.setTail "" ::
        (buildSignature (buildSignedInfo infId (digestB64 sha1 t))
          (base64Encode raw) (base64Encode certDer)).setTail t.tailOf :: post) := by
  unfold assinarCore at h
  obtain ⟨kc, hkc, h⟩ := bindOkElim h
  obtain ⟨loc, hloc, h⟩ := bindOkElim h
  obtain ⟨infId, hid, h⟩ := bindOkElim h
  obtain ⟨addl, hp⟩ := loadCredential_ok hkc
  have hf := locateTarget_ok hloc
  obtain ⟨ha, hne⟩ := getId_ok hid
  obtain ⟨raw, hs, hout⟩ := signStep_ok h
  exact ⟨kc.1, kc.2, addl, loc.1, loc.2.1, loc.2.2, infId, raw, hp,
    by rw [hf], ha, hne, hs, hout⟩

/-- Setting the tail leaves the tag unchanged. -/
theorem isTag_setTail (t : String) (n : XNode) (s : String) :
    isTag t (n.setTail s) = isTag t n := by
  cases n <;> rfl

/-- Setting the tail leaves the canonical form unchanged (the node's own
tail is never part of its canonical form). -/
theorem c14nNode_setTail (n : XNode) (s : String) :
    c14nNode (n.setTail s) = c14nNode n := by
  cases n <;> simp [c14nNode, XNode.setTail]

/-- Setting the tail leaves the children unchanged. -/
theorem childrenOf_setTail (n : XNode) (s : String) :
    (n.setTail s).childrenOf = n.childrenOf := by
  cases n <;> rfl

/-- Setting the tail leaves the attributes unchanged. -/
theorem attrOf_setTail (n : XNode) (s nm : String) :
    attrOf (n.setTail s) nm = attrOf n nm := by
  cases n <;> rfl

/-- A node whose children decompose as a nonempty list is an element, so
`setChildren` really replaces the child list. -/
theorem childrenOf_setChildren {root : XNode} {pre : List XNode} {t : XNode}
    {post l : List XNode} (h : root.childrenOf = pre ++ t :: post) :
    (root.setChildren l).childrenOf = l := by
  cases root with
  | elem tg a tx cs tl => rfl
  | comment c tl =>
    simp only [XNode.childrenOf] at h
    exact absurd h.symm (by simp)

/-- A node free of a tag at depth does not itself carry the tag. -/
theorem isTag_false_of_deep_false {t : String} {c : XNode}
    (h : containsTagDeep t c = false) : isTag t c = false := by
  cases c with
  | comment _ _ => rfl
  | elem tg a tx cs tl =>
    simp only [containsTagDeep, Bool.or_eq_false_iff] at h
    simp only [isTag]
    exact h.1

/-- Deep-search failure over a list means failure at every element. -/
theorem deep_false_of_any_false {t : String} :
    ∀ {cs : List XNode}, containsTagDeep.anyContainsTag t cs = false →
      ∀ c ∈ cs, containsTagDeep t c = false := by
  intro cs
  induction cs with
  | nil => intro _ c hc; exact absurd hc (List.not_mem_nil c)
  | cons d rest ih =>
    intro h c hc
    simp only [containsTagDeep.anyContainsTag, Bool.or_eq_false_iff] at h
    rcases List.mem_cons.mp hc with h1 | h2
    · subst h1; exact h.1
    · exact ih h.2 c h2

/-- If no element with the tag occurs anywhere in the tree, the
children-only locator finds nothing. -/
theorem findFirst_none_of_no_deep {t : String} {root : XNode}
    (h : containsTagDeep t root = false) :
    findFirst (isTag t) root.childrenOf = none := by
  apply findFirst_none
  intro x hx
  apply isTag_false_of_deep_false
  cases root with
  | comment c tl =>
    simp only [XNode.childrenOf] at hx
    exact absurd hx (List.not_mem_nil x)
  | elem tg a tx cs tl =>
    simp only [containsTagDeep, Bool.or_eq_false_iff] at h
    simp only [XNode.childrenOf] at hx
    exact deep_false_of_any_false h.2 x hx

/-- Reduction of a bind on a success value. -/
theorem exceptBind_ok_red {ε α β : Type} (a : α) (f : α → Except ε β) :
    Except.bind (Except.ok a) f = f a := rfl

/-- Reduction of a bind on an error value. -/
theorem exceptBind_error_red {ε α β : Type} (e : ε) (f : α → Except ε β) :
    Except.bind (Except.error e) f = Except.error e := rfl

/-- A successful credential load from an explicit parse result. -/
theorem loadCredential_of_parse {loadP12 : Pkcs12Load} {pfxData : Bytes}
    {pwd : Option String} {key : PrivKey} {certDer : Bytes} {addl : List Bytes}
    (hcred : loadP12 pfxData (pwdArg pwd) = Except.ok (some key, some certDer, addl)) :
    loadCredential loadP12 pfxData pwd = Except.ok (key, certDer) := by
  unfold loadCredential
  rw [hcred]

/-- Claim C6 is false as stated: `nestedDoc` contains an `infDPS` element
in its tree (as a grandchild of the root), yet the locator fails, because
`root.find("ns:infDPS", ns_nfse)` searches only the direct children of
the root. -/
theorem locator_misses_nested_descendant :
    containsTagDeep (nfseTag "infDPS") nestedDoc = true ∧
    locate nestedDoc "infDPS" = none := ⟨rfl, rfl⟩

/-- Claim C6 (amended): the target locator searches only the direct
children of the document root for `{namespace}tag`; whenever at least one
direct child matches, it deterministically picks the first matching child
in document order (an element matching only deeper in the tree is not
found). -/
theorem locator_first_direct_child (root : XNode) (tg : String)
    (h : ∃ c ∈ root.childrenOf, isTag (nfseTag tg) c = true) :
    ∃ pre t post, root.childrenOf = pre ++ t :: post ∧
      isTag (nfseTag tg) t = true ∧
      (∀ x ∈ pre, isTag (nfseTag tg) x = false) ∧
      locate root tg = some t := by
  obtain ⟨r, hr⟩ := findFirst_isSome _ _ h
  obtain ⟨hcs, hpt, hpre⟩ := findFirst_sound _ _ _ _ _ hr
  refine ⟨r.1, r.2.1, r.2.2, hcs, hpt, hpre, ?_⟩
  unfold locate
  rw [hr]
  rfl

/-- Witness for the amended C6: on a document with two direct `infDPS`
children the locator succeeds and returns the first one. -/
theorem locator_first_direct_child_witness :
    (∃ c ∈ twoMatchDoc.childrenOf, isTag (nfseTag "infDPS") c = true) ∧
    (∃ pre t post, twoMatchDoc.childrenOf = pre ++ t :: post ∧
      isTag (nfseTag "infDPS") t = true ∧
      (∀ x ∈ pre, isTag (nfseTag "infDPS") x = false) ∧
      locate twoMatchDoc "infDPS" = some t) :=
  ⟨⟨demoTarget, List.mem_cons_self demoTarget _, rfl⟩,
    locator_first_direct_child twoMatchDoc "infDPS"
      ⟨demoTarget, List.mem_cons_self demoTarget _, rfl⟩⟩

/-- Claim C7: with a successfully parsed credential, a document with no
element carrying the target tag anywhere in its tree makes `assinar_xml`
fail with the element-not-found `ValueError`, and a document whose located
target has an absent or empty `Id` makes it fail with the missing-Id
`ValueError`; both results are errors, so no signed output is produced. -/
theorem locator_error_handling (loadP12 : Pkcs12Load) (sha1 : Bytes → Bytes)
    (pfxData : Bytes) (pwd : Option String) (tg : String)
    (key : PrivKey) (certDer : Bytes) (addl : List Bytes)
    (rootA rootB tB : XNode)
    (hcred : loadP12 pfxData (pwdArg pwd) = Except.ok (some key, some certDer, addl))
    (hA : containsTagDeep (nfseTag tg) rootA = false)
    (hB : locate rootB tg = some tB)
    (hBid : attrOf tB "Id" = none ∨ attrOf tB "Id" = some "") :
    assinarCore loadP12 sha1 pfxData pwd rootA tg
      = Except.error (SignError.elementNotFound tg) ∧
    assinarCore loadP12 sha1 pfxData pwd rootB tg
      = Except.error (SignError.missingId tg) := by
  have hload := loadCredential_of_parse hcred
  constructor
  · have hlocA : locateTarget rootA tg
        = Except.error (SignError.elementNotFound tg) := by
      unfold locateTarget
      rw [findFirst_none_of_no_deep hA]
    unfold assinarCore
    rw [hload, exceptBind_ok_red, hlocA, exceptBind_error_red]
  · obtain ⟨r, hr, hproj⟩ : ∃ r, findFirst (isTag (nfseTag tg)) rootB.childrenOf
        = some r ∧ r.2.1 = tB := by
      unfold locate at hB
      cases hf : findFirst (isTag (nfseTag tg)) rootB.childrenOf with
      | none => rw [hf] at hB; exact Option.noConfusion hB
      | some r =>
        rw [hf] at hB
        simp only [Option.map_some', Option.some.injEq] at hB
        exact ⟨r, rfl, hB⟩
    have hloc : locateTarget rootB tg = Except.ok r := by
      unfold locateTarget
      rw [hr]
    have hgid : getId r.2.1 tg = Except.error (SignError.missingId tg) := by
      unfold getId
      rw [hproj]
      rcases hBid with hB1 | hB2
      · rw [hB1]
      · rw [hB2]
        rfl
    unfold assinarCore
    rw [hload, exceptBind_ok_red, hloc, exceptBind_ok_red, hgid,
      exceptBind_error_red]

/-- Witness for C7: a concrete run with no `infDPS` anywhere fails with
the element-not-found error; a concrete run whose `infDPS` has no Id
fails with the missing-Id error. -/
theorem locator_error_handling_witness :
    assinarCore demoLoad demoSha demoPfx none noMatchDoc "infDPS"
      = Except.error (SignError.elementNotFound "infDPS") ∧
    assinarCore demoLoad demoSha demoPfx none noIdDoc "infDPS"
      = Except.error (SignError.missingId "infDPS") :=
  locator_error_handling demoLoad demoSha demoPfx none "infDPS"
    demoKey [1] [] noMatchDoc noIdDoc (XNode.elem (nfseTag "infDPS") [] "" [] "")
    rfl rfl rfl (Or.inl rfl)

/-- Claim C8: whenever the PKCS#12 parse raises (unparsable container,
empty bytes, wrong passphrase) or returns without a private key or
without a certificate, `assinar_xml` fails with a credential error
(`InvalidCredential` class), the result is an error (no partial
credential, no signed output), and the error is the same for every XML
document and tag — the failure happens before any XML is processed. -/
theorem invalid_credential_failure (loadP12 : Pkcs12Load) (sha1 : Bytes → Bytes)
    (pfxData : Bytes) (pwd : Option String)
    (rootA rootB : XNode) (tgA tgB : String)
    (h : (∃ m, loadP12 pfxData (pwdArg pwd) = Except.error m) ∨
      (∃ res, loadP12 pfxData (pwdArg pwd) = Except.ok res ∧
        (res.1 = none ∨ res.2.1 = none))) :
    ∃ e, e.isInvalidCredential = true ∧
      assinarCore loadP12 sha1 pfxData pwd rootA tgA = Except.error e ∧
      assinarCore loadP12 sha1 pfxData pwd rootB tgB = Except.error e := by
  have hload : ∃ e, SignError.isInvalidCredential e = true ∧
      loadCredential loadP12 pfxData pwd = Except.error e := by
    rcases h with ⟨m, hm⟩ | ⟨res, hres, hnone⟩
    · exact ⟨SignError.pfxLoadRaise m, rfl, by unfold loadCredential; rw [hm]⟩
    · refine ⟨SignError.pfxInvalid, rfl, ?_⟩
      unfold loadCredential
      rw [hres]
      obtain ⟨okey, ocert, addl⟩ := res
      rcases hnone with h1 | h1
      · simp only at h1
        subst h1
        rfl
      · simp only at h1
        subst h1
        cases okey <;> rfl
  obtain ⟨e, hinv, he⟩ := hload
  refine ⟨e, hinv, ?_, ?_⟩ <;>
    (unfold assinarCore; rw [he, exceptBind_error_red])

/-- Witness for C8: a loader that rejects the container makes the
concrete run fail with a credential error, identically on two different
documents. -/
theorem invalid_credential_failure_witness :
    ∃ e, e.isInvalidCredential = true ∧
      assinarCore failLoad demoSha demoPfx none demoDoc "infDPS"
        = Except.error e ∧
      assinarCore failLoad demoSha demoPfx none noMatchDoc "infDPS"
        = Except.error e :=
  invalid_credential_failure failLoad demoSha demoPfx none demoDoc noMatchDoc
    "infDPS" "infDPS" (Or.inl ⟨"could not deserialize", rfl⟩)

/-- Claim C10: signer.py line 48 (`pfx_password.encode() if pfx_password
else None`) sends the empty-string passphrase and the absent passphrase
to the PKCS#12 parser identically, as no password; consequently the whole
signing operation behaves identically under the two, for every container
and every loader behaviour. -/
theorem empty_passphrase_eq_none (loadP12 : Pkcs12Load) (sha1 : Bytes → Bytes)
    (pfxData : Bytes) (root : XNode) (tg : String) :
    pwdArg (some "") = none ∧ pwdArg none = none ∧
    assinarCore loadP12 sha1 pfxData (some "") root tg
      = assinarCore loadP12 sha1 pfxData none root tg :=
  ⟨rfl, rfl, rfl⟩

/-- Claim C9 is false as stated: `assinar_xml` performs no usability
check on the private key before signing.  On a concrete run whose key is
unusable with the RSA arguments, the failure is the raw exception
propagated from the library call `private_key.sign(...)` — not an error
the operation itself raises (the code has no `SigningFailed` branch and
no key-type check). -/
theorem sign_failure_propagates_unchecked :
    assinarCore badKeyLoad demoSha demoPfx none demoDoc "infDPS"
      = Except.error (SignError.signRaise "bad key type") ∧
    SignError.isExplicitValueError (SignError.signRaise "bad key type")
      = false :=
  ⟨rfl, rfl⟩

/-- Claim C9 (amended): the operation performs no key-usability check
before signing; it invokes the RSA primitive directly on the canonical
SignedInfo bytes, and when the primitive fails (e.g. the key is not an
RSA key) the primitive's own error propagates as the result — no signed
output is produced. -/
theorem sign_raise_propagates (loadP12 : Pkcs12Load) (sha1 : Bytes → Bytes)
    (pfxData : Bytes) (pwd : Option String) (root : XNode) (tg : String)
    (key : PrivKey) (certDer : Bytes) (addl : List Bytes)
    (pre : List XNode) (t : XNode) (post : List XNode) (infId m : String)
    (hcred : loadP12 pfxData (pwdArg pwd)
      = Except.ok (some key, some certDer, addl))
    (hf : findFirst (isTag (nfseTag tg)) root.childrenOf = some (pre, t, post))
    (hid : attrOf t "Id" = some infId) (hne : infId ≠ "")
    (hs : key.sign (strBytes (c14nNode (buildSignedInfo infId (digestB64 sha1 t))))
      = Except.error m) :
    assinarCore loadP12 sha1 pfxData pwd root tg
      = Except.error (SignError.signRaise m) := by
  have hload := loadCredential_of_parse hcred
  have hloc : locateTarget root tg = Except.ok (pre, t, post) := by
    unfold locateTarget
    rw [hf]
  have hgid : getId t tg = Except.ok infId := by
    unfold getId
    rw [hid]
    show (if infId = "" then Except.error (SignError.missingId tg)
      else Except.ok infId) = Except.ok infId
    rw [if_neg hne]
  unfold assinarCore
  rw [hload, exceptBind_ok_red]
  dsimp only
  rw [hloc, exceptBind_ok_red]
  dsimp only
  rw [hgid, exceptBind_ok_red]
  unfold signStep
  rw [hs]

/-- Witness for the amended C9: the concrete unusable-key run fails with
the propagated library error. -/
theorem sign_raise_propagates_witness :
    assinarCore badKeyLoad demoSha demoPfx none demoDoc "infDPS"
      = Except.error (SignError.signRaise "bad key type") :=
  sign_raise_propagates badKeyLoad demoSha demoPfx none demoDoc "infDPS"
    badKey [1] [] [] demoTarget [] "X1" "bad key type"
    rfl rfl rfl (by decide) rfl

/-- The DigestValue reachable inside the assembled Signature is exactly
the digest placed into the SignedInfo. -/
theorem digestValueOf_buildSignature (infId d sb cb tl : String) :
    digestValueOf ((buildSignature (buildSignedInfo infId d) sb cb).setTail tl)
      = some d := rfl

/-- The SignatureValue text of the assembled Signature. -/
theorem sigValueOf_buildSignature (infId d sb cb tl : String) :
    sigValueOf ((buildSignature (buildSignedInfo infId d) sb cb).setTail tl)
      = some sb := rfl

/-- The assembled Signature element carries the ds:Signature tag. -/
theorem isTag_buildSignature (si : XNode) (sb cb tl : String) :
    isTag (dsTag "Signature") ((buildSignature si sb cb).setTail tl) = true :=
  rfl

/-- The assembled Signature element carries the ds:Signature tag
(tail-free form). -/
theorem isTag_buildSignature_plain (si : XNode) (sb cb : String) :
    isTag (dsTag "Signature") (buildSignature si sb cb) = true := rfl

/-- Claim C1: on every successful signing run, the DigestValue text in
the Reference of the produced Signature element equals the base64
encoding of the SHA-1 hash of the inclusive (exclusive=false),
comments-stripped C14N 1.0 canonical bytes of the located target
element. -/
theorem digest_is_base64_sha1_c14n (loadP12 : Pkcs12Load)
    (sha1 : Bytes → Bytes) (pfxData : Bytes) (pwd : Option String)
    (root : XNode) (tg : String) (out : XNode)
    (h : assinarCore loadP12 sha1 pfxData pwd root tg = Except.ok out) :
    ∃ t sig, locate root tg = some t ∧
      sig ∈ out.childrenOf ∧ isTag (dsTag "Signature") sig = true ∧
      digestValueOf sig
        = some (base64Encode (sha1 (strBytes (c14nNode t)))) := by
  obtain ⟨key, certDer, addl, pre, t, post, infId, raw, hp, hf, ha, hne, hs, hout⟩ :=
    assinarCore_ok h
  obtain ⟨hcs, hpt, hpre⟩ := findFirst_sound _ _ _ _ _ hf
  refine ⟨t, (buildSignature (buildSignedInfo infId (digestB64 sha1 t))
      (base64Encode raw) (base64Encode certDer)).setTail t.tailOf,
      ?_, ?_, ?_, ?_⟩
  · unfold locate
    rw [hf]
    rfl
  · rw [hout, childrenOf_setChildren hcs]
    simp
  · exact isTag_buildSignature _ _ _ _
  · exact digestValueOf_buildSignature infId _ _ _ _

/-- Witness for C1: the concrete run succeeds and its embedded
DigestValue matches the independently recomputed digest of the located
target. -/
theorem digest_is_base64_sha1_c14n_witness :
    demoRun = Except.ok demoOut ∧
    ∃ t sig, locate demoDoc "infDPS" = some t ∧
      sig ∈ demoOut.childrenOf ∧ isTag (dsTag "Signature") sig = true ∧
      digestValueOf sig
        = some (base64Encode (demoSha (strBytes (c14nNode t)))) :=
  ⟨rfl, digest_is_base64_sha1_c14n demoLoad demoSha demoPfx none demoDoc
    "infDPS" demoOut rfl⟩

/-- Claim C2: on every successful signing run the produced Signature
element contains exactly one SignedInfo, one SignatureValue and one
KeyInfo → X509Data → X509Certificate chain; SignedInfo holds exactly one
Reference whose URI is `#` followed by the target's Id (for every valid
Id), and the Reference holds exactly the two Transforms
[enveloped-signature, C14N 1.0], in that order. -/
theorem signature_structural_completeness (loadP12 : Pkcs12Load)
    (sha1 : Bytes → Bytes) (pfxData : Bytes) (pwd : Option String)
    (root : XNode) (tg : String) (out : XNode)
    (h : assinarCore loadP12 sha1 pfxData pwd root tg = Except.ok out) :
    ∃ t infId sig, locate root tg = some t ∧
      attrOf t "Id" = some infId ∧ infId ≠ "" ∧
      sig ∈ out.childrenOf ∧ isTag (dsTag "Signature") sig = true ∧
      countTag (dsTag "SignedInfo") sig.childrenOf = 1 ∧
      countTag (dsTag "SignatureValue") sig.childrenOf = 1 ∧
      countTag (dsTag "KeyInfo") sig.childrenOf = 1 ∧
      (∃ ki, firstChildTag sig (dsTag "KeyInfo") = some ki ∧
        ∃ xd, ki.childrenOf = [xd] ∧ isTag (dsTag "X509Data") xd = true ∧
          ∃ xc, xd.childrenOf = [xc] ∧
            isTag (dsTag "X509Certificate") xc = true) ∧
      (∃ si, firstChildTag sig (dsTag "SignedInfo") = some si ∧
        countTag (dsTag "Reference") si.childrenOf = 1 ∧
        ∃ r, firstChildTag si (dsTag "Reference") = some r ∧
          attrOf r "URI" = some ("#" ++ infId) ∧
          ∃ tr, firstChildTag r (dsTag "Transforms") = some tr ∧
            tr.childrenOf =
              [ XNode.elem (dsTag "Transform")
                  [("Algorithm", envelopedSigURI)] "" [] ""
              , XNode.elem (dsTag "Transform")
                  [("Algorithm", c14nAlgURI)] "" [] "" ]) := by
  obtain ⟨key, certDer, addl, pre, t, post, infId, raw, hp, hf, ha, hne, hs, hout⟩ :=
    assinarCore_ok h
  obtain ⟨hcs, hpt, hpre⟩ := findFirst_sound _ _ _ _ _ hf
  refine ⟨t, infId, (buildSignature (buildSignedInfo infId (digestB64 sha1 t))
      (base64Encode raw) (base64Encode certDer)).setTail t.tailOf,
      ?_, ha, hne, ?_, rfl, rfl, rfl, rfl, ?_, ?_⟩
  · unfold locate
    rw [hf]
    rfl
  · rw [hout, childrenOf_setChildren hcs]
    simp
  · exact ⟨XNode.elem (dsTag "KeyInfo") [] ""
      [XNode.elem (dsTag "X509Data") [] ""
        [XNode.elem (dsTag "X509Certificate") [] (base64Encode certDer) [] ""] ""]
      "", rfl,
      XNode.elem (dsTag "X509Data") [] ""
        [XNode.elem (dsTag "X509Certificate") [] (base64Encode certDer) [] ""] "",
      rfl, rfl,
      XNode.elem (dsTag "X509Certificate") [] (base64Encode certDer) [] "",
      rfl, rfl⟩
  · exact ⟨buildSignedInfo infId (digestB64 sha1 t), rfl, rfl,
      XNode.elem (dsTag "Reference") [("URI", "#" ++ infId)] ""
        [ XNode.elem (dsTag "Transforms") [] ""
            [ XNode.elem (dsTag "Transform")
                [("Algorithm", envelopedSigURI)] "" [] ""
            , XNode.elem (dsTag "Transform")
                [("Algorithm", c14nAlgURI)] "" [] "" ] ""
        , XNode.elem (dsTag "DigestMethod") [("Algorithm", sha1AlgURI)] "" [] ""
        , XNode.elem (dsTag "DigestValue") [] (digestB64 sha1 t) [] "" ] "",
      rfl, rfl,
      XNode.elem (dsTag "Transforms") [] ""
        [ XNode.elem (dsTag "Transform")
            [("Algorithm", envelopedSigURI)] "" [] ""
        , XNode.elem (dsTag "Transform")
            [("Algorithm", c14nAlgURI)] "" [] "" ] "",
      rfl, rfl⟩

/-- Witness for C2: the concrete run produces a structurally complete
Signature referencing `#X1`. -/
theorem signature_structural_completeness_witness :
    demoRun = Except.ok demoOut ∧
    ∃ t infId sig, locate demoDoc "infDPS" = some t ∧
      attrOf t "Id" = some infId ∧ infId ≠ "" ∧
      sig ∈ demoOut.childrenOf ∧ isTag (dsTag "Signature") sig = true ∧
      countTag (dsTag "SignedInfo") sig.childrenOf = 1 ∧
      countTag (dsTag "SignatureValue") sig.childrenOf = 1 ∧
      countTag (dsTag "KeyInfo") sig.childrenOf = 1 ∧
      (∃ ki, firstChildTag sig (dsTag "KeyInfo") = some ki ∧
        ∃ xd, ki.childrenOf = [xd] ∧ isTag (dsTag "X509Data") xd = true ∧
          ∃ xc, xd.childrenOf = [xc] ∧
            isTag (dsTag "X509Certificate") xc = true) ∧
      (∃ si, firstChildTag sig (dsTag "SignedInfo") = some si ∧
        countTag (dsTag "Reference") si.childrenOf = 1 ∧
        ∃ r, firstChildTag si (dsTag "Reference") = some r ∧
          attrOf r "URI" = some ("#" ++ infId) ∧
          ∃ tr, firstChildTag r (dsTag "Transforms") = some tr ∧
            tr.childrenOf =
              [ XNode.elem (dsTag "Transform")
                  [("Algorithm", envelopedSigURI)] "" [] ""
              , XNode.elem (dsTag "Transform")
                  [("Algorithm", c14nAlgURI)] "" [] "" ]) :=
  ⟨rfl, signature_structural_completeness demoLoad demoSha demoPfx none
    demoDoc "infDPS" demoOut rfl⟩

/-- Claim C3: signing does not mutate the signed content — re-locating
the target in the final signed document, canonicalizing it and hashing it
reproduces exactly the DigestValue embedded in the Signature. -/
theorem roundtrip_reextracted_digest (loadP12 : Pkcs12Load)
    (sha1 : Bytes → Bytes) (pfxData : Bytes) (pwd : Option String)
    (root : XNode) (tg : String) (out : XNode)
    (h : assinarCore loadP12 sha1 pfxData pwd root tg = Except.ok out) :
    ∃ t2 sig, locate out tg = some t2 ∧
      sig ∈ out.childrenOf ∧ isTag (dsTag "Signature") sig = true ∧
      digestValueOf sig
        = some (base64Encode (sha1 (strBytes (c14nNode t2)))) := by
  obtain ⟨key, certDer, addl, pre, t, post, infId, raw, hp, hf, ha, hne, hs, hout⟩ :=
    assinarCore_ok h
  obtain ⟨hcs, hpt, hpre⟩ := findFirst_sound _ _ _ _ _ hf
  have hchild : out.childrenOf = pre ++ t.setTail "" ::
      (buildSignature (buildSignedInfo infId (digestB64 sha1 t))
        (base64Encode raw) (base64Encode certDer)).setTail t.tailOf :: post := by
    rw [hout]
    exact childrenOf_setChildren hcs
  refine ⟨t.setTail "", (buildSignature (buildSignedInfo infId (digestB64 sha1 t))
      (base64Encode raw) (base64Encode certDer)).setTail t.tailOf,
      ?_, ?_, isTag_buildSignature _ _ _ _, ?_⟩
  · unfold locate
    rw [hchild, findFirst_prepend _ pre _ _ hpre (by rw [isTag_setTail]; exact hpt)]
    rfl
  · rw [hchild]
    simp
  · rw [digestValueOf_buildSignature, c14nNode_setTail]
    rfl

/-- Witness for C3: on the concrete signed output, re-extracting and
re-hashing the target reproduces the embedded DigestValue. -/
theorem roundtrip_reextracted_digest_witness :
    demoRun = Except.ok demoOut ∧
    ∃ t2 sig, locate demoOut "infDPS" = some t2 ∧
      sig ∈ demoOut.childrenOf ∧ isTag (dsTag "Signature") sig = true ∧
      digestValueOf sig
        = some (base64Encode (demoSha (strBytes (c14nNode t2)))) :=
  ⟨rfl, roundtrip_reextracted_digest demoLoad demoSha demoPfx none demoDoc
    "infDPS" demoOut rfl⟩

/-- Claim C4: on every successful signing run, the Signature element is
inserted as the immediate next sibling of the originally-located target
element (for any number of siblings before or after it), the target's own
subtree is unchanged (the Signature is a sibling, not a child), and
exactly one Signature element is added to the sibling list. -/
theorem signature_placement_next_sibling (loadP12 : Pkcs12Load)
    (sha1 : Bytes → Bytes) (pfxData : Bytes) (pwd : Option String)
    (root : XNode) (tg : String) (out : XNode)
    (h : assinarCore loadP12 sha1 pfxData pwd root tg = Except.ok out) :
    ∃ pre t post sig,
      root.childrenOf = pre ++ t :: post ∧
      (∀ x ∈ pre, isTag (nfseTag tg) x = false) ∧
      isTag (nfseTag tg) t = true ∧
      isTag (dsTag "Signature") sig = true ∧
      out.childrenOf = pre ++ t.setTail "" :: sig :: post ∧
      (t.setTail "").childrenOf = t.childrenOf ∧
      (t.setTail "").attrsOf = t.attrsOf ∧
      countTag (dsTag "Signature") out.childrenOf
        = countTag (dsTag "Signature") root.childrenOf + 1 := by
  obtain ⟨key, certDer, addl, pre, t, post, infId, raw, hp, hf, ha, hne, hs, hout⟩ :=
    assinarCore_ok h
  obtain ⟨hcs, hpt, hpre⟩ := findFirst_sound _ _ _ _ _ hf
  have hchild : out.childrenOf = pre ++ t.setTail "" ::
      (buildSignature (buildSignedInfo infId (digestB64 sha1 t))
        (base64Encode raw) (base64Encode certDer)).setTail t.tailOf :: post := by
    rw [hout]
    exact childrenOf_setChildren hcs
  refine ⟨pre, t, post, (buildSignature (buildSignedInfo infId (digestB64 sha1 t))
      (base64Encode raw) (base64Encode certDer)).setTail t.tailOf,
      hcs, hpre, hpt, isTag_buildSignature _ _ _ _, hchild,
      by cases t <;> rfl, by cases t <;> rfl, ?_⟩
  rw [hchild, hcs]
  simp only [countTag, List.countP_append, List.countP_cons, isTag_setTail,
    isTag_buildSignature, isTag_buildSignature_plain]
  simp only [if_true]
  omega

/-- Witness for C4: the concrete run splices the Signature immediately
after the target. -/
theorem signature_placement_next_sibling_witness :
    demoRun = Except.ok demoOut ∧
    ∃ pre t post sig,
      demoDoc.childrenOf = pre ++ t :: post ∧
      (∀ x ∈ pre, isTag (nfseTag "infDPS") x = false) ∧
      isTag (nfseTag "infDPS") t = true ∧
      isTag (dsTag "Signature") sig = true ∧
      demoOut.childrenOf = pre ++ t.setTail "" :: sig :: post ∧
      (t.setTail "").childrenOf = t.childrenOf ∧
      (t.setTail "").attrsOf = t.attrsOf ∧
      countTag (dsTag "Signature") demoOut.childrenOf
        = countTag (dsTag "Signature") demoDoc.childrenOf + 1 :=
  ⟨rfl, signature_placement_next_sibling demoLoad demoSha demoPfx none
    demoDoc "infDPS" demoOut rfl⟩

/-- Claim C5: signing is deterministic — for a fixed document, fixed
credential and fixed library behaviour, any two successful runs yield the
same signed tree, byte-identical serialised output, and in particular the
same DigestValue and the same SignatureValue in the embedded Signature. -/
theorem signing_deterministic (loadP12 : Pkcs12Load) (sha1 : Bytes → Bytes)
    (pfxData : Bytes) (pwd : Option String) (root : XNode) (tg : String)
    (out1 out2 : XNode)
    (h1 : assinarCore loadP12 sha1 pfxData pwd root tg = Except.ok out1)
    (h2 : assinarCore loadP12 sha1 pfxData pwd root tg = Except.ok out2) :
    out1 = out2 ∧
    serializeDoc out1 = serializeDoc out2 ∧
    assinarXml loadP12 sha1 pfxData pwd root tg
      = Except.ok (serializeDoc out1) ∧
    (firstChildTag out1 (dsTag "Signature")).bind digestValueOf
      = (firstChildTag out2 (dsTag "Signature")).bind digestValueOf ∧
    (firstChildTag out1 (dsTag "Signature")).bind sigValueOf
      = (firstChildTag out2 (dsTag "Signature")).bind sigValueOf := by
  have heq : out1 = out2 := by
    have h3 := h1.symm.trans h2
    exact Except.ok.inj h3
  subst heq
  refine ⟨rfl, rfl, ?_, rfl, rfl⟩
  unfold assinarXml
  rw [h1]
  rfl

/-- Witness for C5: two invocations of the concrete run agree. -/
theorem signing_deterministic_witness :
    demoRun = Except.ok demoOut ∧
    demoOut = demoOut ∧
    serializeDoc demoOut = serializeDoc demoOut ∧
    assinarXml demoLoad demoSha demoPfx none demoDoc "infDPS"
      = Except.ok (serializeDoc demoOut) ∧
    (firstChildTag demoOut (dsTag "Signature")).bind digestValueOf
      = (firstChildTag demoOut (dsTag "Signature")).bind digestValueOf ∧
    (firstChildTag demoOut (dsTag "Signature")).bind sigValueOf
      = (firstChildTag demoOut (dsTag "Signature")).bind sigValueOf := by
  have h := signing_deterministic demoLoad demoSha demoPfx none demoDoc
    "infDPS" demoOut demoOut rfl rfl
  exact ⟨rfl, h.1, h.2.1, h.2.2.1, h.2.2.2.1, h.2.2.2.2⟩

/-- Witness for C10: the concrete run behaves identically under the
empty-string and the absent passphrase. -/
theorem empty_passphrase_eq_none_witness :
    pwdArg (some "") = none ∧ pwdArg none = none ∧
    assinarCore demoLoad demoSha demoPfx (some "") demoDoc "infDPS"
      = assinarCore demoLoad demoSha demoPfx none demoDoc "infDPS" :=
  empty_passphrase_eq_none demoLoad demoSha demoPfx demoDoc "infDPS"
